import Mathlib

/-!
Verification of the react-query-factory core: a shallow embedding of
src/create-use-query.ts, src/create-use-mutation.ts and
src/create-queries-from-service.ts, together with theorems settling the
specification claims about key derivation, options forwarding and the
service compiler.
-/

namespace RQF

/-- Runtime JavaScript values as far as this library manipulates them:
parameters, cache keys and option bags. Objects are modelled as ordered
field lists (as written in a literal); functions are kept out of this type
and modelled separately where the code stores them. -/
inductive JSValue where
  | undef
  | null
  | bool (b : Bool)
  | num (n : Int)
  | str (s : String)
  | arr (elems : List JSValue)
  | obj (fields : List (String × JSValue))

/-- JavaScript truthiness, used by the boolean-or short circuit on line 49 of
create-use-query.ts. Arrays and objects are always truthy. -/
def jsTruthy : JSValue → Bool
  | .undef => false
  | .null => false
  | .bool b => b
  | .num n => n != 0
  | .str s => s != ""
  | .arr _ => true
  | .obj _ => true

/-- Embedding of the JavaScript expression a or-or b: a when truthy, else b. -/
def jsOr (a b : JSValue) : JSValue :=
  if jsTruthy a then a else b

/-- True exactly on array values; the declared TypeScript type QueryKey is an
array type, so well typed key functions and key options produce such values. -/
def isArr : JSValue → Bool
  | .arr _ => true
  | _ => false

/-- Property read on a field list: first binding wins, mirroring lookup into
an already constructed object (JS objects hold at most one binding per key). -/
def objGet {α : Type} (k : String) : List (String × α) → Option α
  | [] => none
  | kv :: t => if kv.1 = k then some kv.2 else objGet k t

/-- Property assignment obj[k] = v: overwrite the existing binding in place,
or append a fresh one, exactly as a JS property write behaves. -/
def objSet {α : Type} (o : List (String × α)) (k : String) (v : α) : List (String × α) :=
  match o with
  | [] => [(k, v)]
  | kv :: t => if kv.1 = k then (k, v) :: t else kv :: objSet t k v

/-- Object spread: copy the source entries onto o left to right, each one a
property assignment, exactly the semantics of a spread in an object literal. -/
def objSpread {α : Type} (o src : List (String × α)) : List (String × α) :=
  src.foldl (fun acc kv => objSet acc kv.1 kv.2) o

/-- Last binding of a key in an as-written field list; this is the value the
constructed JS object carries when duplicate literal keys occur, and the value
a spread of that list leaves behind. -/
def lastGet {α : Type} (k : String) : List (String × α) → Option α
  | [] => none
  | kv :: t =>
    match lastGet k t with
    | some w => some w
    | none => if kv.1 = k then some kv.2 else none

/-- Own enumerable string-keyed entries a value contributes when spread into an
object literal: objects give their fields, arrays and strings give index
entries, and every other value (undefined, null, booleans, numbers)
contributes nothing. -/
def jsSpreadFields : JSValue → List (String × JSValue)
  | .obj fields => fields
  | .arr elems => elems.enum.map (fun p => (toString p.1, p.2))
  | .str s => s.toList.enum.map (fun p => (toString p.1, .str p.2.toString))
  | _ => []

/-- Embedding of the optional-chained property read o?.[k]: undefined when o
is undefined or null, the property for an object, and undefined on every
other value, which carries no such property. -/
def optMember (o : JSValue) (k : String) : JSValue :=
  match o with
  | .obj fields =>
    match lastGet k fields with
    | some v => v
    | none => .undef
  | _ => (.undef)

/-- Entry of the configuration object handed to the external runtime: either a
plain value or a function value (the execution closures the adapters build,
identified extensionally by their behaviour). -/
inductive RTVal where
  | js (v : JSValue)
  | fn (f : JSValue → JSValue)

/-- Spread entries of a caller-supplied value, injected as plain runtime
values. -/
def rtFields (v : JSValue) : List (String × RTVal) :=
  (jsSpreadFields v).map (fun kv => (kv.1, RTVal.js kv.2))

/-- Embedding of line 49 of create-use-query.ts (line 93 of the lib copy):
const computedKey = queryKey?.(params) or-or options?.queryKey or-or [].
The registered key function is optional; params is the first positional
argument of the hook and options the second. -/
def computedKey (queryKey : Option (JSValue → JSValue)) (params options : JSValue) : JSValue :=
  jsOr
    (jsOr
      (match queryKey with
       | some f => f params
       | none => .undef)
      (optMember options "queryKey"))
    (.arr [])

/-- Embedding of createUseQuery (create-use-query.ts lines 40-60): the
returned hook takes the two positional arguments (params, options), computes
the key, selects the spread source by the compile-time arity flag
(getOptions on lines 50-53), and builds the object literal handed to the
external runtime: queryFn first, then the spread, then queryKey last. The
result is that object. -/
def createUseQuery (expectsParams : Bool) (serviceFn : JSValue → JSValue)
    (queryKey : Option (JSValue → JSValue)) :
    JSValue → JSValue → List (String × RTVal) :=
  fun params options =>
    let ck := computedKey queryKey params options
    let getOptions := if expectsParams then options else params
    objSet
      (objSpread [("queryFn", RTVal.fn (fun _ => serviceFn params))] (rtFields getOptions))
      "queryKey" (RTVal.js ck)

/-- Embedding of createUseMutation (create-use-mutation.ts lines 130-144):
the returned hook takes an options bag and builds the object literal handed
to the mutation primitive: mutationFn first, then the spread of the bag. -/
def createUseMutation (serviceFn : JSValue → JSValue) :
    JSValue → List (String × RTVal) :=
  fun options =>
    objSpread [("mutationFn", RTVal.fn serviceFn)] (rtFields options)

/-- Compiled record attached to one operation name: the useQuery hook
(mapping its two positional arguments to the runtime configuration), the
useMutation hook, and the queryKey function. -/
structure Triad where
  useQuery : JSValue → JSValue → List (String × RTVal)
  useMutation : JSValue → List (String × RTVal)
  queryKey : JSValue → JSValue

/-- Triad built by createQueriesFromService for a function entry whose
declared parameter count is positive (lines 59-73 of
create-queries-from-service.ts). -/
def mkTriadWithParams ( queryKeyPrefix opName : String) (run : JSValue → JSValue) : Triad where
  useQuery := createUseQuery true run
    (some (fun params => .arr [.str queryKeyPrefix, .str opName, params]))
  useMutation := createUseMutation run
  queryKey := fun params => .arr [.str queryKeyPrefix, .str opName, params]

/-- Triad built by createQueriesFromService for a function entry whose
declared parameter count is zero (lines 75-89 of
create-queries-from-service.ts). -/
def mkTriadWithoutParams ( queryKeyPrefix opName : String) (run : JSValue → JSValue) : Triad where
  useQuery := createUseQuery false run
    (some (fun params => .arr [.str queryKeyPrefix, .str opName, params]))
  useMutation := createUseMutation run
  queryKey := fun params => .arr [.str queryKeyPrefix, .str opName, params]

/-- Entry of a service object: a function value carries its declared
parameter count (the value of fn.length the compiler branches on) and its
behaviour; any other entry is a plain value. -/
inductive SvcEntry where
  | fnEntry (length : Nat) (run : JSValue → JSValue)
  | valEntry (v : JSValue)

/-- Body of the forEach loop of createQueriesFromService (lines 51-92):
skip non-function entries, classify by serviceFn.length > 0, and assign the
matching triad under the entry name. -/
def compileStep ( queryKeyPrefix : String) (queries : List (String × Triad))
    (kv : String × SvcEntry) : List (String × Triad) :=
  match kv.2 with
  | .valEntry _ => queries
  | .fnEntry len run =>
    if len > 0 then objSet queries kv.1 (mkTriadWithParams queryKeyPrefix kv.1 run)
    else objSet queries kv.1 (mkTriadWithoutParams queryKeyPrefix kv.1 run)

/-- Embedding of createQueriesFromService (lines 19-95): fold the forEach
body over the enumerable entries of the service, starting from the empty
accumulator object. -/
def createQueriesFromService (service : List (String × SvcEntry))
    ( queryKeyPrefix : String) : List (String × Triad) :=
  service.foldl (compileStep queryKeyPrefix) []

/-- Service argument as it may arrive at runtime: an actual object of
entries, or any other JavaScript value. -/
inductive ServiceInput where
  | obj (entries : List (String × SvcEntry))
  | prim (v : JSValue)

/-- Runtime behaviour of createQueriesFromService on an arbitrary service
argument. Object.keys throws a synchronous TypeError on null and undefined;
on every other non-function value it returns the own enumerable keys, whose
values are never functions here (strings and arrays enumerate their indices,
primitives enumerate nothing), so the forEach skips them all and the result
is the empty object. No validation exists in the source. -/
def createQueriesFromServiceRT (service : ServiceInput)
    ( queryKeyPrefix : String) : Except String (List (String × Triad)) :=
  match service with
  | .obj entries => .ok (createQueriesFromService entries queryKeyPrefix)
  | .prim .null => .error "TypeError: Cannot convert undefined or null to object"
  | .prim .undef => .error "TypeError: Cannot convert undefined or null to object"
  | .prim _ => .ok []

/-- Concrete service used by the test suite: one zero-arity operation, one
one-arity operation, and one non-function entry added to exercise the skip
branch. -/
def demoService : List (String × SvcEntry) :=
  [("getData", .fnEntry 0 (fun _ => .str "data")),
   ("postData", .fnEntry 1 (fun p => .arr [.str "posted", p])),
   ("version", .valEntry (.num 1))]

theorem objGet_objSet_self {α : Type} (o : List (String × α)) (k : String) (v : α) :
    objGet k (objSet o k v) = some v := by
  induction o with
  | nil => simp [objSet, objGet]
  | cons kv t ih =>
    by_cases h : kv.1 = k
    · simp [objSet, h, objGet]
    · simp [objSet, h, objGet, ih]

theorem objGet_objSet_ne {α : Type} (o : List (String × α)) (k k2 : String) (v : α)
    (h : k2 ≠ k) : objGet k (objSet o k2 v) = objGet k o := by
  induction o with
  | nil => simp [objSet, objGet, h]
  | cons kv t ih =>
    by_cases hk : kv.1 = k2
    · simp [objSet, hk, objGet, h]
    · simp [objSet, hk, objGet, ih]

theorem objGet_objSpread {α : Type} (k : String) (src o : List (String × α)) :
    objGet k (objSpread o src) =
      match lastGet k src with
      | some v => some v
      | none => objGet k o := by
  induction src generalizing o with
  | nil => simp [objSpread, lastGet]
  | cons kv t ih =>
    have hstep : objSpread o (kv :: t) = objSpread (objSet o kv.1 kv.2) t := rfl
    rw [hstep, ih]
    cases hLast : lastGet k t with
    | some w => simp [lastGet, hLast]
    | none =>
      by_cases hk : kv.1 = k
      · subst hk
        simp [lastGet, hLast, objGet_objSet_self]
      · simp [lastGet, hLast, hk, objGet_objSet_ne o k kv.1 kv.2 hk]

theorem lastGet_map {α β : Type} (k : String) (f : α → β) (l : List (String × α)) :
    lastGet k (l.map (fun kv => (kv.1, f kv.2))) = (lastGet k l).map f := by
  induction l with
  | nil => simp [lastGet]
  | cons kv t ih =>
    simp only [List.map_cons, lastGet, ih]
    cases lastGet k t with
    | some w => simp
    | none =>
      by_cases hk : kv.1 = k
      · simp [hk]
      · simp [hk]

theorem jsTruthy_of_isArr (v : JSValue) (h : isArr v = true) : jsTruthy v = true := by
  cases v <;> simp_all [isArr, jsTruthy]

theorem jsOr_undef (b : JSValue) : jsOr .undef b = b := rfl

theorem jsOr_of_truthy (a b : JSValue) (h : jsTruthy a = true) : jsOr a b = a := by
  simp [jsOr, h]

theorem lastGet_rtFields (k : String) (v : JSValue) :
    lastGet k (rtFields v) = (lastGet k (jsSpreadFields v)).map RTVal.js :=
  lastGet_map k RTVal.js (jsSpreadFields v)

/-- The queryKey entry of the object handed to useQuery is always the computed
key: it is assigned after the spread of the caller options, so nothing in the
bag can shadow it. -/
theorem objGet_queryKey_createUseQuery (e : Bool) (svc : JSValue → JSValue)
    (qk : Option (JSValue → JSValue)) (p o : JSValue) :
    objGet "queryKey" (createUseQuery e svc qk p o)
      = some (RTVal.js (computedKey qk p o)) := by
  simp only [createUseQuery]
  exact objGet_objSet_self _ _ _

/-- The queryFn entry of the object handed to useQuery is the execution
closure applying the wrapped function to the first positional argument,
provided the spread source carries no queryFn binding of its own (the literal
places queryFn before the spread, so such a binding would shadow it). -/
theorem objGet_queryFn_createUseQuery (e : Bool) (svc : JSValue → JSValue)
    (qk : Option (JSValue → JSValue)) (p o : JSValue)
    (hq : lastGet "queryFn" (jsSpreadFields (if e then o else p)) = none) :
    objGet "queryFn" (createUseQuery e svc qk p o)
      = some (RTVal.fn (fun _ => svc p)) := by
  simp only [createUseQuery]
  rw [objGet_objSet_ne _ _ _ _ (by decide : "queryKey" ≠ "queryFn"),
      objGet_objSpread, lastGet_rtFields, hq]
  rfl

/-- Every non-reserved entry of the object handed to useQuery is exactly the
binding the spread source carries for it. -/
theorem objGet_other_createUseQuery (e : Bool) (svc : JSValue → JSValue)
    (qk : Option (JSValue → JSValue)) (p o : JSValue) (k : String)
    (h1 : k ≠ "queryFn") (h2 : k ≠ "queryKey") :
    objGet k (createUseQuery e svc qk p o)
      = (lastGet k (jsSpreadFields (if e then o else p))).map RTVal.js := by
  simp only [createUseQuery]
  rw [objGet_objSet_ne _ _ _ _ (Ne.symm h2), objGet_objSpread, lastGet_rtFields]
  cases lastGet k (jsSpreadFields (if e then o else p)) with
  | some v => rfl
  | none => simp [objGet, Ne.symm h1]

/-- The mutationFn entry of the object handed to useMutation is the wrapped
function, provided the options bag carries no mutationFn binding of its own
(the literal places mutationFn before the spread). -/
theorem objGet_mutationFn_createUseMutation (svc : JSValue → JSValue) (o : JSValue)
    (hm : lastGet "mutationFn" (jsSpreadFields o) = none) :
    objGet "mutationFn" (createUseMutation svc o) = some (RTVal.fn svc) := by
  simp only [createUseMutation]
  rw [objGet_objSpread, lastGet_rtFields, hm]
  rfl

/-- Every non-reserved entry of the object handed to useMutation is exactly
the binding the options bag carries for it. -/
theorem objGet_other_createUseMutation (svc : JSValue → JSValue) (o : JSValue)
    (k : String) (h : k ≠ "mutationFn") :
    objGet k (createUseMutation svc o)
      = (lastGet k (jsSpreadFields o)).map RTVal.js := by
  simp only [createUseMutation]
  rw [objGet_objSpread, lastGet_rtFields]
  cases lastGet k (jsSpreadFields o) with
  | some v => rfl
  | none => simp [objGet, Ne.symm h]

/-- C1: for every compiled operation, of either arity, the default key
function returns exactly the triple of namespace, operation name and
parameter; and for the zero-arity scenario with namespace testPrefix and
operation getData, calling it with no argument (so the parameter is
undefined) yields the triple testPrefix, getData, undefined. -/
theorem claim_C1_default_key (ns op : String) (run0 run1 : JSValue → JSValue) (p : JSValue) :
    (mkTriadWithParams ns op run1).queryKey p = .arr [.str ns, .str op, p] ∧
    (mkTriadWithoutParams ns op run0).queryKey p = .arr [.str ns, .str op, p] ∧
    (mkTriadWithoutParams "testPrefix" "getData" run0).queryKey .undef
      = .arr [.str "testPrefix", .str "getData", .undef] :=
  ⟨rfl, rfl, rfl⟩

/-- C2: under one namespace, two invocations of compiled key functions agree
exactly when the operation names and the parameters are structurally equal:
equal name and parameter give structurally equal keys, and a different name,
or a different parameter under the same name, gives structurally different
keys, whatever the parameters are and whichever arity class each operation
fell into. -/
theorem claim_C2_key_discrimination (ns op1 op2 : String)
    (run1 run2 : JSValue → JSValue) (p1 p2 : JSValue) :
    ((mkTriadWithParams ns op1 run1).queryKey p1 = (mkTriadWithParams ns op2 run2).queryKey p2
      ↔ (op1 = op2 ∧ p1 = p2)) ∧
    ((mkTriadWithoutParams ns op1 run1).queryKey p1
        = (mkTriadWithoutParams ns op2 run2).queryKey p2
      ↔ (op1 = op2 ∧ p1 = p2)) ∧
    ((mkTriadWithParams ns op1 run1).queryKey p1
        = (mkTriadWithoutParams ns op2 run2).queryKey p2
      ↔ (op1 = op2 ∧ p1 = p2)) := by
  refine ⟨?_, ?_, ?_⟩ <;>
    simp [mkTriadWithParams, mkTriadWithoutParams]

/-- C3: for a zero-arity compiled operation, read invoked with a single
options argument hands the runtime an execution closure that calls the
wrapped function with no parameter (a declared zero-parameter function
ignores the argument the closure passes, which the constancy hypothesis
expresses), and forwards every non-reserved entry of the options bag to the
runtime object verbatim. -/
theorem claim_C3_zero_arity_read (ns op : String) (run : JSValue → JSValue)
    (bag : JSValue) (k : String)
    (hzero : ∀ v, run v = run .undef)
    (hq : lastGet "queryFn" (jsSpreadFields bag) = none) :
    objGet "queryFn" ((mkTriadWithoutParams ns op run).useQuery bag .undef)
      = some (RTVal.fn (fun _ => run .undef)) ∧
    (k ≠ "queryFn" → k ≠ "queryKey" →
      objGet k ((mkTriadWithoutParams ns op run).useQuery bag .undef)
        = (lastGet k (jsSpreadFields bag)).map RTVal.js) := by
  constructor
  · have h := objGet_queryFn_createUseQuery false run
      (some (fun params => .arr [.str ns, .str op, params])) bag .undef hq
    simp only [hzero] at h
    exact h
  · intro h1 h2
    exact objGet_other_createUseQuery false run
      (some (fun params => .arr [.str ns, .str op, params])) bag .undef k h1 h2

/-- Witness for C3 on the scenario service: the zero-arity getData operation
invoked with the single options argument containing enabled false forwards
that entry to the runtime object unmodified. -/
theorem claim_C3_witness :
    objGet "enabled"
      ((mkTriadWithoutParams "testPrefix" "getData" (fun _ => JSValue.str "data")).useQuery
        (.obj [("enabled", .bool false)]) .undef)
      = some (RTVal.js (.bool false)) :=
  ((claim_C3_zero_arity_read "testPrefix" "getData" (fun _ => .str "data")
      (.obj [("enabled", .bool false)]) "enabled" (fun _ => rfl) rfl).2
    (by decide) (by decide)).trans rfl

/-- C4: evaluation of the code at the failing input. For the zero-arity
compiled operation getData under namespace testPrefix, invoking read with the
single options argument containing enabled false derives the key with the
options bag embedded in the parameter slot: the key derivation on line 49 of
create-use-query.ts receives the raw first positional argument and the
compile-time arity classification is consulted only afterwards, for the
spread source. The claim (and the repository documentation of the default
key pattern) requires the triple with undefined in the parameter slot. -/
theorem claim_C4_key_embeds_options :
    objGet "queryKey"
      ((mkTriadWithoutParams "testPrefix" "getData" (fun _ => JSValue.str "data")).useQuery
        (.obj [("enabled", .bool false)]) .undef)
      = some (RTVal.js (.arr [.str "testPrefix", .str "getData",
          .obj [("enabled", .bool false)]])) := rfl

/-- C5: when a key function is registered for the operation it receives the
parameter and its result is the key used for the read, whatever queryKey the
caller options bag carries (the hypothesis records that the function returns
an array, which is what its declared type QueryKey states, and arrays are
truthy, so the boolean-or short circuit never reaches the options bag); the
options-bag queryKey is consulted only in the branch where no key function
was registered. -/
theorem claim_C5_key_function_precedence (e : Bool) (svc : JSValue → JSValue)
    (f : JSValue → JSValue) (params options : JSValue) :
    (isArr (f params) = true →
      computedKey (some f) params options = f params ∧
      objGet "queryKey" (createUseQuery e svc (some f) params options)
        = some (RTVal.js (f params))) ∧
    computedKey none params options = jsOr (optMember options "queryKey") (.arr []) := by
  constructor
  · intro h
    have ht := jsTruthy_of_isArr _ h
    have hck : computedKey (some f) params options = f params := by
      simp [computedKey, jsOr, ht]
    exact ⟨hck, (objGet_queryKey_createUseQuery e svc (some f) params options).trans
      (by rw [hck])⟩
  · simp [computedKey, jsOr, jsTruthy]

/-- Witness for C5: the registered key function of the one-arity postData
operation wins over a caller-supplied queryKey option. -/
theorem claim_C5_witness :
    computedKey (some (fun p => .arr [.str "testPrefix", .str "postData", p]))
        (.obj [("name", .str "x")]) (.obj [("queryKey", .arr [.str "caller"])])
      = .arr [.str "testPrefix", .str "postData", .obj [("name", .str "x")]] :=
  ((claim_C5_key_function_precedence true (fun v => v)
      (fun p => .arr [.str "testPrefix", .str "postData", p])
      (.obj [("name", .str "x")]) (.obj [("queryKey", .arr [.str "caller"])])).1 rfl).1

/-- C6 counterexample: the execution-function entry is not always overwritten
by the system. The object literal places queryFn (and mutationFn) before the
spread of the caller options, so a bag carrying that name shadows the
execution closure: the object handed to the runtime carries the caller value
in the execution slot, not a function built by the system. -/
theorem claim_C6_counterexample :
    objGet "queryFn"
      (createUseQuery true (fun v => v) none (.str "p") (.obj [("queryFn", .str "bad")]))
      = some (RTVal.js (.str "bad")) ∧
    objGet "mutationFn"
      (createUseMutation (fun v => v) (.obj [("mutationFn", .str "bad")]))
      = some (RTVal.js (.str "bad")) :=
  ⟨rfl, rfl⟩

/-- C6 amended: the key-selection entry is always overwritten by the system,
since it is assigned after the spread; the execution-function entry is the
system closure only when the caller bag carries no binding of that name
(which the declared option types, built with Omit, enforce), because the
literal places it before the spread; and every other option in the bag is
forwarded to the runtime object verbatim, for reads and for writes. -/
theorem claim_C6_reserved_entries (e : Bool) (svc : JSValue → JSValue)
    (qk : Option (JSValue → JSValue)) (params options mo : JSValue) (k km : String) :
    objGet "queryKey" (createUseQuery e svc qk params options)
      = some (RTVal.js (computedKey qk params options)) ∧
    (lastGet "queryFn" (jsSpreadFields (if e then options else params)) = none →
      objGet "queryFn" (createUseQuery e svc qk params options)
        = some (RTVal.fn (fun _ => svc params))) ∧
    (k ≠ "queryFn" → k ≠ "queryKey" →
      objGet k (createUseQuery e svc qk params options)
        = (lastGet k (jsSpreadFields (if e then options else params))).map RTVal.js) ∧
    (lastGet "mutationFn" (jsSpreadFields mo) = none →
      objGet "mutationFn" (createUseMutation svc mo) = some (RTVal.fn svc)) ∧
    (km ≠ "mutationFn" →
      objGet km (createUseMutation svc mo) = (lastGet km (jsSpreadFields mo)).map RTVal.js) :=
  ⟨objGet_queryKey_createUseQuery e svc qk params options,
   fun hq => objGet_queryFn_createUseQuery e svc qk params options hq,
   fun h1 h2 => objGet_other_createUseQuery e svc qk params options k h1 h2,
   fun hm => objGet_mutationFn_createUseMutation svc mo hm,
   fun h => objGet_other_createUseMutation svc mo km h⟩

/-- Witness for C6 amended: a refetchInterval option passed to a one-arity
read reaches the runtime object verbatim. -/
theorem claim_C6_witness :
    objGet "refetchInterval"
      (createUseQuery true (fun v => v) none (.str "p")
        (.obj [("refetchInterval", .num 6000)]))
      = some (RTVal.js (.num 6000)) :=
  ((claim_C6_reserved_entries true (fun v => v) none (.str "p")
      (.obj [("refetchInterval", .num 6000)]) (.undef) "refetchInterval" "x").2.2.1
    (by decide) (by decide)).trans rfl

/-- C9: for a one-arity compiled operation, one invocation of read with a
parameter and an options bag (one carrying no execution-function binding, as
the declared option types enforce) hands the runtime a key whose third
element is the parameter and an execution closure applying the wrapped
function to that very same parameter: key and execution agree on the
parameter in every invocation. -/
theorem claim_C9_key_and_execution_agree (ns op : String) (run : JSValue → JSValue)
    (p opts : JSValue)
    (hq : lastGet "queryFn" (jsSpreadFields opts) = none) :
    objGet "queryKey" ((mkTriadWithParams ns op run).useQuery p opts)
      = some (RTVal.js (.arr [.str ns, .str op, p])) ∧
    objGet "queryFn" ((mkTriadWithParams ns op run).useQuery p opts)
      = some (RTVal.fn (fun _ => run p)) :=
  ⟨objGet_queryKey_createUseQuery true run
      (some (fun params => .arr [.str ns, .str op, params])) p opts,
   objGet_queryFn_createUseQuery true run
      (some (fun params => .arr [.str ns, .str op, params])) p opts hq⟩

/-- Witness for C9 on the scenario service: the one-arity postData operation
invoked with a concrete parameter carries that parameter in the key slot. -/
theorem claim_C9_witness :
    objGet "queryKey"
      ((mkTriadWithParams "testPrefix" "postData" (fun p => p)).useQuery
        (.obj [("name", .str "x")]) .undef)
      = some (RTVal.js (.arr [.str "testPrefix", .str "postData",
          .obj [("name", .str "x")]])) :=
  (claim_C9_key_and_execution_agree "testPrefix" "postData" (fun p => p)
    (.obj [("name", .str "x")]) .undef rfl).1

/-- C10: with no key-derivation function registered, the computed key falls
back to the queryKey of the second positional argument when that option is
present (an array by its declared type) and otherwise to the constant empty
array, so any two hooks built directly through createUseQuery whose callers
supply no queryKey option hand the runtime the very same empty key, whatever
operations they wrap and whichever arity class they were given. -/
theorem claim_C10_empty_key_fallback (params options : JSValue)
    (e1 e2 : Bool) (f1 f2 : JSValue → JSValue) (p1 p2 o1 o2 : JSValue) :
    (isArr (optMember options "queryKey") = true →
      computedKey none params options = optMember options "queryKey") ∧
    (optMember options "queryKey" = .undef →
      computedKey none params options = .arr []) ∧
    (optMember o1 "queryKey" = .undef → optMember o2 "queryKey" = .undef →
      objGet "queryKey" (createUseQuery e1 f1 none p1 o1) = some (RTVal.js (.arr [])) ∧
      objGet "queryKey" (createUseQuery e2 f2 none p2 o2) = some (RTVal.js (.arr []))) := by
  refine ⟨?_, ?_, ?_⟩
  · intro h
    have ht := jsTruthy_of_isArr _ h
    show jsOr (jsOr .undef (optMember options "queryKey")) (.arr []) = _
    rw [jsOr_undef, jsOr_of_truthy _ _ ht]
  · intro h
    show jsOr (jsOr .undef (optMember options "queryKey")) (.arr []) = _
    rw [jsOr_undef, h, jsOr_undef]
  · intro h1 h2
    constructor
    · exact (objGet_queryKey_createUseQuery e1 f1 none p1 o1).trans
        (by simp [computedKey, jsOr, jsTruthy, h1])
    · exact (objGet_queryKey_createUseQuery e2 f2 none p2 o2).trans
        (by simp [computedKey, jsOr, jsTruthy, h2])

/-- Witness for C10: a zero-arity-style hook called with no argument and a
one-arity-style hook over a different operation called with a parameter and
an options bag without queryKey both hand the runtime the empty key. -/
theorem claim_C10_witness :
    objGet "queryKey"
      (createUseQuery false (fun _ => JSValue.str "a") none .undef .undef)
      = some (RTVal.js (.arr [])) ∧
    objGet "queryKey"
      (createUseQuery true (fun _ => JSValue.str "b") none (.str "p")
        (.obj [("enabled", .bool true)]))
      = some (RTVal.js (.arr [])) :=
  (claim_C10_empty_key_fallback .undef .undef false true
    (fun _ => .str "a") (fun _ => .str "b") .undef (.str "p") .undef
    (.obj [("enabled", .bool true)])).2.2 rfl rfl

/-- The compiler fold never touches a binding whose name is not among the
processed entries. -/
theorem objGet_compile_untouched ( queryKeyPrefix : String) (l : List (String × SvcEntry))
    (acc : List (String × Triad)) (k : String)
    (h : k ∉ l.map Prod.fst) :
    objGet k (l.foldl (compileStep queryKeyPrefix) acc) = objGet k acc := by
  induction l generalizing acc with
  | nil => rfl
  | cons kv t ih =>
    simp only [List.map_cons, List.mem_cons, not_or] at h
    rw [List.foldl_cons, ih _ h.2]
    cases hkv : kv.2 with
    | valEntry v => simp [compileStep, hkv]
    | fnEntry len run =>
      by_cases hl : len > 0 <;>
        simp [compileStep, hkv, hl,
          objGet_objSet_ne acc k kv.1 _ (fun hh => h.1 hh.symm)]

/-- Characterisation of the compiler fold from any accumulator the looked-up
name is absent from: the binding is the classified triad of the unique
function entry of that name, and absent for a non-function entry or no entry. -/
theorem objGet_compile_go ( queryKeyPrefix : String) (l : List (String × SvcEntry))
    (acc : List (String × Triad)) (k : String)
    (hnd : (l.map Prod.fst).Nodup) (hacc : objGet k acc = none) :
    objGet k (l.foldl (compileStep queryKeyPrefix) acc) =
      match objGet k l with
      | some (.fnEntry len run) =>
        some (if len > 0 then mkTriadWithParams queryKeyPrefix k run
              else mkTriadWithoutParams queryKeyPrefix k run)
      | _ => none := by
  induction l generalizing acc with
  | nil => simpa [objGet] using hacc
  | cons kv t ih =>
    rw [List.foldl_cons]
    simp only [List.map_cons, List.nodup_cons] at hnd
    by_cases hk : kv.1 = k
    · subst hk
      rw [objGet_compile_untouched _ _ _ _ hnd.1]
      cases hkv : kv.2 with
      | valEntry v => simp [compileStep, hkv, hacc, objGet]
      | fnEntry len run =>
        by_cases hl : len > 0 <;>
          simp [compileStep, hkv, hl, objGet, objGet_objSet_self]
    · cases hkv : kv.2 with
      | valEntry v =>
        rw [show compileStep queryKeyPrefix acc kv = acc from by simp [compileStep, hkv]]
        rw [ih acc hnd.2 hacc]
        simp [objGet, hk]
      | fnEntry len run =>
        by_cases hl : len > 0
        · rw [show compileStep queryKeyPrefix acc kv
              = objSet acc kv.1 (mkTriadWithParams queryKeyPrefix kv.1 run) from by
            simp [compileStep, hkv, hl]]
          rw [ih _ hnd.2 ((objGet_objSet_ne acc k kv.1 _ hk).trans hacc)]
          simp [objGet, hk]
        · rw [show compileStep queryKeyPrefix acc kv
              = objSet acc kv.1 (mkTriadWithoutParams queryKeyPrefix kv.1 run) from by
            simp [compileStep, hkv, hl]]
          rw [ih _ hnd.2 ((objGet_objSet_ne acc k kv.1 _ hk).trans hacc)]
          simp [objGet, hk]

/-- C7: for a service with its (necessarily distinct) entry names, the
compiled object binds a name exactly when the service binds it to a function
value, with the triad classified by the declared parameter count: zero gives
the zero-arity triad, one or more gives the one-arity triad; names bound to
non-function values are absent from the output. -/
theorem claim_C7_compiler_classification (service : List (String × SvcEntry))
    ( queryKeyPrefix k : String)
    (hnd : (service.map Prod.fst).Nodup) :
    objGet k (createQueriesFromService service queryKeyPrefix) =
      match objGet k service with
      | some (.fnEntry len run) =>
        some (if len > 0 then mkTriadWithParams queryKeyPrefix k run
              else mkTriadWithoutParams queryKeyPrefix k run)
      | _ => none :=
  objGet_compile_go queryKeyPrefix service [] k hnd rfl

/-- Witness for C7 on the test service: the zero-arity getData entry compiles
to the zero-arity triad. -/
theorem claim_C7_witness :
    objGet "getData" (createQueriesFromService demoService "testPrefix")
      = some (mkTriadWithoutParams "testPrefix" "getData" (fun _ => JSValue.str "data")) :=
  (claim_C7_compiler_classification demoService "testPrefix" "getData" (by decide)).trans rfl

/-- C8 counterexample: a malformed service input need not raise anything. The
number five is not a plain mapping, yet the compiler synchronously returns
the empty result with no error: the source performs no input validation at
all (Object.keys coerces a non-null primitive and enumerates no function
valued keys). -/
theorem claim_C8_counterexample :
    createQueriesFromServiceRT (.prim (.num 5)) "testPrefix" = .ok [] := rfl

/-- C8 amended: the only malformed inputs that fail fast are null and
undefined, which make the key enumeration throw a synchronous TypeError;
every other non-mapping input is silently compiled to the empty result, with
no configuration-error validation anywhere. -/
theorem claim_C8_no_validation (v : JSValue) ( queryKeyPrefix : String) :
    ((v = .null ∨ v = .undef) →
      createQueriesFromServiceRT (.prim v) queryKeyPrefix
        = .error "TypeError: Cannot convert undefined or null to object") ∧
    (v ≠ .null → v ≠ .undef →
      createQueriesFromServiceRT (.prim v) queryKeyPrefix = .ok []) := by
  constructor
  · rintro (rfl | rfl) <;> rfl
  · intro h1 h2
    cases v <;> first | rfl | simp_all

/-- Witness for C8 amended: a boolean service input silently compiles to the
empty result. -/
theorem claim_C8_witness :
    createQueriesFromServiceRT (.prim (.bool true)) "testPrefix" = .ok [] :=
  (claim_C8_no_validation (.bool true) "testPrefix").2 (by simp) (by simp)

end RQF
